import Mathlib

set_option linter.unusedVariables false

/-!
Shallow embedding of `raiden/network/proxies/payment_channel.py` (class
`PaymentChannel`) and proofs about it.

Modelling conventions:
- Addresses are natural numbers (`decode_hex` output abstracted to its value).
- The external Ledger Program Collaborator (`TokenNetwork`) is an injected
  record of capabilities, as the spec prescribes; its log store is a function
  from a channel id to the decoded events for that id, in ledger order.
  The external Event Decoder is collapsed into the log store: the store
  already yields structured `ChannelOpenedEvent` / `ChannelClosedEvent`
  records, which is what `decode_event` returns for the fields this core
  reads.
- Python exceptions become an error type `PCError`; each constructor is one
  raise site family, and `PCError.pythonType` records the Python exception
  class actually raised (`ValueError` for the three constructor raises,
  `AssertionError` for the two `assert` statements).
- Methods are embedded in explicit-state style: each takes the channel value
  and returns its result paired with the channel value afterwards, so that
  mutation of the object (there is none in the source) would be visible.
-/

namespace Raiden

/-- An account / contract address (the value of the decoded bytes). -/
abbrev Address := Nat

/-- `UINT256_MAX` from `raiden.constants`. -/
def UINT256_MAX : Int := 2 ^ 256 - 1

/-- `typing.ChannelUniqueID`: token identity plus the integer channel id.
The id is an `Int` because Python ints are unbounded and signed and the
constructor explicitly checks `channel_id < 0`. -/
structure ChannelUniqueID where
  token_address : Address
  channel_id : Int
deriving DecidableEq

/-- The event names this module queries (`ChannelEvent.OPENED` /
`ChannelEvent.CLOSED` from `raiden_contracts.constants`). -/
inductive ChannelEventName where
  | ChannelOpened
  | ChannelClosed
deriving DecidableEq

/-- A decoded `ChannelOpened` event: the fields `payment_channel.py` reads
from `event['args']` (`participant1`, `participant2`, `settle_timeout`). -/
structure ChannelOpenedEvent where
  participant1 : Address
  participant2 : Address
  settle_timeout : Nat
deriving DecidableEq

/-- A decoded `ChannelClosed` event: the field `payment_channel.py` reads
is `event['blockNumber']`. -/
structure ChannelClosedEvent where
  blockNumber : Nat
deriving DecidableEq

/-- `ChannelDetails` is an opaque aggregate for this core: it never
interprets the fields, so a single abstract payload suffices. -/
structure ChannelDetails where
  raw : Nat
deriving DecidableEq

/-- The Ledger Program Collaborator (`TokenNetwork` proxy), as the injected
interface of capabilities consumed by `PaymentChannel`.  The log store
functions model `web3.eth.getLogs` composed with the filter built by
`get_filter_args_for_specific_event_from_channel` (scoped to this token
network and one channel id and event name) and with `decode_event`. -/
structure TokenNetwork where
  address : Address
  node_address : Address
  openedLogs : Int → List ChannelOpenedEvent
  closedLogs : Int → List ChannelClosedEvent
  detailFn : Address → Address → ChannelUniqueID → ChannelDetails
  channel_is_opened : Address → Address → ChannelUniqueID → Bool
  channel_is_closed : Address → Address → ChannelUniqueID → Bool
  channel_is_settled : Address → Address → ChannelUniqueID → Bool
  closing_addressFn : Address → Address → ChannelUniqueID → Address
  can_transferFn : Address → Address → ChannelUniqueID → Bool

/-- The Python exception classes raised by `payment_channel.py`. -/
inductive PyExcType where
  | valueError
  | assertionError
deriving DecidableEq

/-- Errors of the module, one constructor per raise-site family, named by
the spec's taxonomy:
- `invalidChannelID`: `raise ValueError('channel_identifier of {} is not a uint256')`;
- `channelNotFound`: `raise ValueError('Channel is non-existing.')`;
- `notAParticipant`: `raise ValueError('One participant must be the node address')`;
- `protocolInvariantViolation`: the two `assert` statements
  (`settle_timeout`, `close_block_number`). -/
inductive PCError where
  | invalidChannelID
  | channelNotFound
  | notAParticipant
  | protocolInvariantViolation
deriving DecidableEq

/-- The Python exception class each error is raised as. -/
def PCError.pythonType : PCError → PyExcType
  | .invalidChannelID => .valueError
  | .channelNotFound => .valueError
  | .notAParticipant => .valueError
  | .protocolInvariantViolation => .assertionError

/-- A read call made against the ledger (a `getLogs` RPC with the filter
arguments built for one token network, channel id and event name). -/
inductive LedgerCall where
  | getLogs (token_network_address : Address) (channel_identifier : Int)
      (event_name : ChannelEventName)
deriving DecidableEq

/-- The channel object after successful construction: the fields
`PaymentChannel.__init__` assigns (the local `RLock` is owned state with no
observable content at this level and is omitted). -/
structure Channel where
  channel_unique_id : ChannelUniqueID
  participant1 : Address
  participant2 : Address
  token_network : TokenNetwork

/-- `PaymentChannel.__init__`: range-check the id, query the Opened events,
require at least one, decode the last, require the local node to be one of
the two participants, and swap so `participant1` is the local node.  Returns
the constructed channel or the error, paired with the list of ledger read
calls issued. -/
def pcInit (tn : TokenNetwork) (cuid : ChannelUniqueID) :
    Except PCError Channel × List LedgerCall :=
  if cuid.channel_id < 0 ∨ cuid.channel_id > UINT256_MAX then
    (.error .invalidChannelID, [])
  else
    match (tn.openedLogs cuid.channel_id).getLast? with
    | none =>
      (.error .channelNotFound,
       [LedgerCall.getLogs tn.address cuid.channel_id .ChannelOpened])
    | some event =>
      if ¬ (tn.node_address = event.participant1 ∨
            tn.node_address = event.participant2) then
        (.error .notAParticipant,
         [LedgerCall.getLogs tn.address cuid.channel_id .ChannelOpened])
      else if tn.node_address = event.participant2 then
        (.ok { channel_unique_id := cuid
               participant1 := event.participant2
               participant2 := event.participant1
               token_network := tn },
         [LedgerCall.getLogs tn.address cuid.channel_id .ChannelOpened])
      else
        (.ok { channel_unique_id := cuid
               participant1 := event.participant1
               participant2 := event.participant2
               token_network := tn },
         [LedgerCall.getLogs tn.address cuid.channel_id .ChannelOpened])

/-- Property `channel_identifier`. -/
def Channel.channel_identifier (c : Channel) : Int :=
  c.channel_unique_id.channel_id

/-- Method `token_address`. -/
def Channel.token_address (c : Channel) : Address × Channel :=
  (c.channel_unique_id.token_address, c)

/-- Method `detail`: delegates with the canonical participant ordering. -/
def Channel.detail (c : Channel) : ChannelDetails × Channel :=
  (c.token_network.detailFn c.participant1 c.participant2 c.channel_unique_id, c)

/-- Method `settle_timeout`: re-query the Opened events, assert at least
one, and return the `settle_timeout` argument of the last one. -/
def Channel.settle_timeout (c : Channel) : Except PCError Nat × Channel :=
  match (c.token_network.openedLogs c.channel_identifier).getLast? with
  | none => (.error .protocolInvariantViolation, c)
  | some event => (.ok event.settle_timeout, c)

/-- Method `close_block_number`: query the Closed events; none means the
channel is not closed; exactly one yields its block number; the source then
asserts `len(events) == 1`, so more than one fails. -/
def Channel.close_block_number (c : Channel) :
    Except PCError (Option Nat) × Channel :=
  match c.token_network.closedLogs c.channel_identifier with
  | [] => (.ok none, c)
  | [event] => (.ok (some event.blockNumber), c)
  | _ => (.error .protocolInvariantViolation, c)

/-- Method `opened`: pure delegation with the canonical ordering. -/
def Channel.opened (c : Channel) : Bool × Channel :=
  (c.token_network.channel_is_opened c.participant1 c.participant2
    c.channel_unique_id, c)

/-- Method `closed`: pure delegation with the canonical ordering. -/
def Channel.closed (c : Channel) : Bool × Channel :=
  (c.token_network.channel_is_closed c.participant1 c.participant2
    c.channel_unique_id, c)

/-- Method `settled`: pure delegation with the canonical ordering. -/
def Channel.settled (c : Channel) : Bool × Channel :=
  (c.token_network.channel_is_settled c.participant1 c.participant2
    c.channel_unique_id, c)

/-- Method `closing_address`: pure delegation with the canonical ordering. -/
def Channel.closing_address (c : Channel) : Address × Channel :=
  (c.token_network.closing_addressFn c.participant1 c.participant2
    c.channel_unique_id, c)

/-- Method `can_transfer`: pure delegation with the canonical ordering. -/
def Channel.can_transfer (c : Channel) : Bool × Channel :=
  (c.token_network.can_transferFn c.participant1 c.participant2
    c.channel_unique_id, c)

/-- The five mutating operations of §4.4. -/
inductive MutOp where
  | set_total_deposit
  | close
  | update_transfer
  | unlock
  | settle
deriving DecidableEq

/-- The delegation a mutating method hands to the Ledger Program
Collaborator: which operation, for which channel, against which partner.
(The operation-specific payload — amounts, balance proof fields, Merkle
leaves — is forwarded verbatim and not interpreted by this core, so it is
not part of the record.) -/
structure MutCall where
  op : MutOp
  channel_unique_id : ChannelUniqueID
  partner : Address
deriving DecidableEq

/-- Method `set_total_deposit`: delegates with `partner = participant2`. -/
def Channel.set_total_deposit (c : Channel) (total_deposit : Nat) :
    MutCall × Channel :=
  ({ op := .set_total_deposit
     channel_unique_id := c.channel_unique_id
     partner := c.participant2 }, c)

/-- Method `close`: delegates the balance proof with
`partner = participant2`. -/
def Channel.close (c : Channel) (nonce : Nat) (balance_hash : Nat)
    (additional_hash : Nat) (signature : Nat) : MutCall × Channel :=
  ({ op := .close
     channel_unique_id := c.channel_unique_id
     partner := c.participant2 }, c)

/-- Method `update_transfer`: delegates the countersigned balance proof with
`partner = participant2`. -/
def Channel.update_transfer (c : Channel) (nonce : Nat) (balance_hash : Nat)
    (additional_hash : Nat) (partner_signature : Nat) (signature : Nat) :
    MutCall × Channel :=
  ({ op := .update_transfer
     channel_unique_id := c.channel_unique_id
     partner := c.participant2 }, c)

/-- Method `unlock`: delegates the Merkle tree leaves with
`partner = participant2`. -/
def Channel.unlock (c : Channel) (merkle_tree_leaves : Nat) :
    MutCall × Channel :=
  ({ op := .unlock
     channel_unique_id := c.channel_unique_id
     partner := c.participant2 }, c)

/-- Method `settle`: delegates both sides' totals with
`partner = participant2`. -/
def Channel.settle (c : Channel) (transferred_amount : Nat)
    (locked_amount : Nat) (locksroot : Nat)
    (partner_transferred_amount : Nat) (partner_locked_amount : Nat)
    (partner_locksroot : Nat) : MutCall × Channel :=
  ({ op := .settle
     channel_unique_id := c.channel_unique_id
     partner := c.participant2 }, c)

/-! ### The event subscription builder (`all_events_filter`) -/

/-- The hexadecimal digit character for a value below 16, as Python's `x`
format produces it (lowercase). -/
def hexDigitChar (d : Nat) : Char :=
  if d < 10 then Char.ofNat (48 + d) else Char.ofNat (87 + d)

/-- The Python f-string `f'0x\x7bself.channel_identifier:064x\x7d'`: the
hexadecimal digits of the number, left-padded with `'0'` to width 64, behind
the literal prefix `0x`. -/
def hex64 (n : Nat) : String :=
  let ds := (Nat.digits 16 n).reverse.map hexDigitChar
  String.mk ('0' :: 'x' :: (List.replicate (64 - ds.length) '0' ++ ds))

/-- The filter description handed to `client.new_filter`: a contract
address, a topic list in which `none` is a wildcard position, and the
optional block range. -/
structure LogFilter where
  contract_address : Address
  topics : List (Option String)
  from_block : Option Nat
  to_block : Option Nat
deriving DecidableEq

/-- Modelled from the spec: the external subscription collaborator
(`client.new_filter` / the ledger log store) matches a log against a topic
constraint list positionally, a `none` position matching anything.  (The
ledger RPC transport is an external collaborator per §1/§6.) -/
def topicsMatch : List (Option String) → List String → Bool
  | [], _ => true
  | _ :: _, [] => false
  | c :: cs, t :: ts =>
    (match c with
     | none => true
     | some s => s = t) && topicsMatch cs ts

/-- Method `all_events_filter`: topic list `[None, '0x{:064x}'.format(id)]`
— event-signature position unconstrained, channel-id position fixed —
passed to `new_filter` with the token network's contract address and the
given block range. -/
def Channel.all_events_filter (c : Channel)
    (from_block : Option Nat) (to_block : Option Nat) :
    LogFilter × Channel :=
  let channel_topics : List (Option String) :=
    [none, some (hex64 c.channel_identifier.toNat)]
  ({ contract_address := c.token_network.address
     topics := channel_topics
     from_block := from_block
     to_block := to_block }, c)

/-! ### The per-partner lock discipline (§4.2)

`TokenNetwork` (the Ledger Program Collaborator) is part of this repository
but not under `src/`; only its caller `payment_channel.py` is.  The lock
behaviour below is therefore modelled from the spec. -/

/-- Modelled from the spec: the steps one mutating call performs against
the single reentrant lock `registry[partner]` it contends on (§4.2: the
registry is keyed by partner address, both calls of interest share the
partner, hence the same lock).  The submission to the ledger is an extended
action with a begin and an end; `ok` records whether the ledger accepted or
rejected it (`LedgerRejected`). -/
inductive SubmissionStep where
  | acquirePartnerLock
  | beginLedgerSubmission
  | endLedgerSubmission (ok : Bool)
  | releasePartnerLock
deriving DecidableEq

/-- Modelled from the spec: a mutating call acquires `registry[partner]`,
performs its ledger submission, and releases on every exit path — also when
the ledger rejects the submission (`ok = false`). -/
def submissionTrace (ok : Bool) : List SubmissionStep :=
  [.acquirePartnerLock, .beginLedgerSubmission, .endLedgerSubmission ok,
   .releasePartnerLock]

/-- One step of the reentrant-lock semantics, for a schedule of two threads
(`Bool` names the thread).  The state is `none` when the lock is free and
`some (t, n)` when thread `t` holds it with reentrancy depth `n + 1`-ish
(depth stored directly).  The result is `none` when the step cannot occur
— acquiring while the other thread holds blocks, so no real schedule
contains it; releasing a lock one does not hold is an error. -/
def lockStep (st : Option (Bool × Nat)) (a : Bool × SubmissionStep) :
    Option (Option (Bool × Nat)) :=
  match a.2 with
  | .acquirePartnerLock =>
    match st with
    | none => some (some (a.1, 1))
    | some (t, n) => if t = a.1 then some (some (t, n + 1)) else none
  | .releasePartnerLock =>
    match st with
    | some (t, n) =>
      if t = a.1 then
        some (if n ≤ 1 then none else some (t, n - 1))
      else none
    | none => none
  | _ => some st

/-- A schedule is admissible from a lock state when every step can occur
under the reentrant-lock semantics. -/
def lockValidFrom : Option (Bool × Nat) → List (Bool × SubmissionStep) → Bool
  | _, [] => true
  | st, a :: s =>
    match lockStep st a with
    | none => false
    | some st2 => lockValidFrom st2 s

/-- A schedule is admissible when it is admissible from the free lock. -/
def lockValid (s : List (Bool × SubmissionStep)) : Bool :=
  lockValidFrom none s

/-- Scans a schedule for interleaved submissions: a begin or end step of one
thread while the other thread is between its begin and its end.  The state
is the thread currently mid-submission, if any. -/
def interleavedFrom : Option Bool → List (Bool × SubmissionStep) → Bool
  | _, [] => false
  | cur, (t, .beginLedgerSubmission) :: s =>
    match cur with
    | some t2 => if t2 = t then interleavedFrom (some t) s else true
    | none => interleavedFrom (some t) s
  | cur, (t, .endLedgerSubmission _) :: s =>
    match cur with
    | some t2 => if t2 = t then interleavedFrom none s else true
    | none => interleavedFrom cur s
  | cur, _ :: s => interleavedFrom cur s

/-- Whether two threads' ledger submissions interleave in a schedule. -/
def submissionsInterleaved (s : List (Bool × SubmissionStep)) : Bool :=
  interleavedFrom none s

/-- Merges two threads' traces into one schedule according to a list of
thread tags; a tag whose thread is already exhausted is dropped.  Every
interleaving of two 4-step traces is `mergeBy bs` for the length-8 tag list
`bs` recording which thread each position belongs to. -/
def mergeBy : List Bool → List SubmissionStep → List SubmissionStep →
    List (Bool × SubmissionStep)
  | [], _, _ => []
  | true :: bs, x :: xs, ys => (true, x) :: mergeBy bs xs ys
  | true :: bs, [], ys => mergeBy bs [] ys
  | false :: bs, xs, y :: ys => (false, y) :: mergeBy bs xs ys
  | false :: bs, xs, [] => mergeBy bs xs []

/-- All `2 ^ n` tag lists of length `n`. -/
def allBoolLists : Nat → List (List Bool)
  | 0 => [[]]
  | n + 1 =>
    (allBoolLists n).map (List.cons true) ++
      (allBoolLists n).map (List.cons false)

/-! ### Concrete fixtures used to evaluate the definitions -/

/-- A concrete ledger: the local node is address 1; channel 5 was opened
between 2 and 1 (settle timeout 500) and closed at block 1000; channel 7
was opened between 2 and 3 (neither is the local node); channel 6 has no
events. -/
def tnW : TokenNetwork :=
  { address := 77
    node_address := 1
    openedLogs := fun i =>
      if i = 5 then [⟨2, 1, 500⟩] else if i = 7 then [⟨2, 3, 90⟩] else []
    closedLogs := fun i => if i = 5 then [⟨1000⟩] else []
    detailFn := fun _ _ _ => ⟨0⟩
    channel_is_opened := fun _ _ _ => true
    channel_is_closed := fun _ _ _ => false
    channel_is_settled := fun _ _ _ => false
    closing_addressFn := fun _ _ _ => 0
    can_transferFn := fun _ _ _ => false }

/-- Channel 5 on token 9. -/
def cuidW : ChannelUniqueID := ⟨9, 5⟩

/-- An out-of-range channel id. -/
def cuidBad : ChannelUniqueID := ⟨9, -1⟩

/-- A channel id with no Opened event. -/
def cuidNone : ChannelUniqueID := ⟨9, 6⟩

/-- A channel id whose Opened event does not list the local node. -/
def cuidAlien : ChannelUniqueID := ⟨9, 7⟩

/-- The channel `pcInit tnW cuidW` constructs: the local node 1 was the
positionally second participant, so the labels are swapped. -/
def chW : Channel :=
  { channel_unique_id := cuidW
    participant1 := 1
    participant2 := 2
    token_network := tnW }

/-- A ledger whose Opened event for channel 5 lists the local node as both
participants (nothing in the constructor forbids this). -/
def tnCex : TokenNetwork :=
  { tnW with openedLogs := fun i => if i = 5 then [⟨1, 1, 500⟩] else [] }

/-- The degenerate channel `pcInit tnCex cuidW` constructs: both
participant labels are the local node. -/
def chCex : Channel :=
  { channel_unique_id := cuidW
    participant1 := 1
    participant2 := 1
    token_network := tnCex }

/-! ### Correctness of the hexadecimal topic encoding -/

/-- The numeric value of a lowercase hexadecimal digit character. -/
def hexVal (c : Char) : Nat :=
  if 97 ≤ c.toNat then c.toNat - 87 else c.toNat - 48

/-- Decodes the digit part of a `hex64` string back to its value. -/
def unhex64 (s : String) : Nat :=
  Nat.ofDigits 16 ((s.data.drop 2).reverse.map hexVal)

theorem hexVal_hexDigitChar : ∀ d < 16, hexVal (hexDigitChar d) = d := by
  decide

theorem ofDigits_replicate_zero (k : Nat) :
    Nat.ofDigits 16 (List.replicate k 0) = 0 := by
  induction k with
  | zero => rfl
  | succ k ih => simp [List.replicate, Nat.ofDigits_cons, ih]

theorem unhex_aux (l : List Nat) (hl : ∀ d ∈ l, d < 16) (k : Nat) :
    Nat.ofDigits 16
      (((List.replicate k '0' ++ (l.reverse.map hexDigitChar)).reverse).map
        hexVal) = Nat.ofDigits 16 l := by
  have hX : l.reverse.map hexDigitChar = (l.map hexDigitChar).reverse := by
    rw [List.map_reverse]
  have hmap : (l.map hexDigitChar).map hexVal = l := by
    rw [List.map_map]
    have := List.map_congr_left (l := l)
      (f := hexVal ∘ hexDigitChar) (g := fun d => d)
      (fun d hd => hexVal_hexDigitChar d (hl d hd))
    rw [this, List.map_id']
  rw [hX, List.reverse_append, List.reverse_reverse, List.reverse_replicate,
    List.map_append, hmap, List.map_replicate]
  have h0 : hexVal '0' = 0 := by decide
  rw [h0, Nat.ofDigits_append, ofDigits_replicate_zero, Nat.mul_zero,
    Nat.add_zero]

theorem unhex64_hex64 (n : Nat) : unhex64 (hex64 n) = n := by
  have h := unhex_aux (Nat.digits 16 n)
    (fun d hd => Nat.digits_lt_base (by norm_num) hd)
    (64 - ((Nat.digits 16 n).reverse.map hexDigitChar).length)
  calc unhex64 (hex64 n)
      = Nat.ofDigits 16
          (((List.replicate
              (64 - ((Nat.digits 16 n).reverse.map hexDigitChar).length) '0' ++
            ((Nat.digits 16 n).reverse.map hexDigitChar)).reverse).map
            hexVal) := rfl
    _ = Nat.ofDigits 16 (Nat.digits 16 n) := h
    _ = n := Nat.ofDigits_digits 16 n

/-- The encoding is injective outright: distinct ids give distinct topics. -/
theorem hex64_inj {m n : Nat} (h : hex64 m = hex64 n) : m = n := by
  rw [← unhex64_hex64 m, h, unhex64_hex64]

/-- For an id in uint256 range the encoded topic is `0x` plus exactly 64
hexadecimal digits: 66 characters. -/
theorem hex64_length (n : Nat) (h : n < 16 ^ 64) : (hex64 n).length = 66 := by
  have hlen : (Nat.digits 16 n).length ≤ 64 := by
    rcases Nat.eq_zero_or_pos n with h0 | h0
    · subst h0; simp
    · have hlog : Nat.log 16 n < 64 :=
        (Nat.lt_pow_iff_log_lt (by norm_num) (Nat.pos_iff_ne_zero.mp h0)).mp h
      rw [Nat.digits_len 16 n (by norm_num) (Nat.pos_iff_ne_zero.mp h0)]
      omega
  have hds : ((Nat.digits 16 n).reverse.map hexDigitChar).length =
      (Nat.digits 16 n).length := by
    rw [List.length_map, List.length_reverse]
  show ('0' :: 'x' ::
      (List.replicate (64 - ((Nat.digits 16 n).reverse.map hexDigitChar).length)
        '0' ++ ((Nat.digits 16 n).reverse.map hexDigitChar))).length = 66
  simp only [List.length_cons, List.length_append, List.length_replicate, hds]
  omega

/-- Mutual exclusion under the reentrant per-partner lock: in every
admissible schedule of two mutating calls on the same lock, the ledger
submissions do not interleave. -/
theorem lock_serializes :
    ∀ (ok1 ok2 : Bool), ∀ bs ∈ allBoolLists 8,
      lockValid (mergeBy bs (submissionTrace ok1) (submissionTrace ok2)) =
        true →
      submissionsInterleaved
        (mergeBy bs (submissionTrace ok1) (submissionTrace ok2)) = false := by
  set_option maxRecDepth 4000 in decide

/-- Characterization of a successful construction: some Opened event was
decoded (the last one), the local node is one of its participants, and the
channel's fields are the canonicalized assignment. -/
theorem pcInit_ok_spec (tn : TokenNetwork) (cuid : ChannelUniqueID)
    (ch : Channel) (hok : (pcInit tn cuid).1 = .ok ch) :
    ∃ ev, (tn.openedLogs cuid.channel_id).getLast? = some ev ∧
      (tn.node_address = ev.participant1 ∨
        tn.node_address = ev.participant2) ∧
      ch.channel_unique_id = cuid ∧ ch.token_network = tn ∧
      ch.participant1 = tn.node_address ∧
      ch.participant2 =
        (if tn.node_address = ev.participant2 then ev.participant1
         else ev.participant2) := by
  unfold pcInit at hok
  by_cases hr : cuid.channel_id < 0 ∨ cuid.channel_id > UINT256_MAX
  · rw [if_pos hr] at hok
    exact absurd hok (by simp)
  · rw [if_neg hr] at hok
    cases hE : (tn.openedLogs cuid.channel_id).getLast? with
    | none =>
      rw [hE] at hok
      exact absurd hok (by simp)
    | some ev =>
      rw [hE] at hok
      dsimp only at hok
      by_cases hm : ¬ (tn.node_address = ev.participant1 ∨
          tn.node_address = ev.participant2)
      · rw [if_pos hm] at hok
        exact absurd hok (by simp)
      · rw [if_neg hm] at hok
        rw [not_not] at hm
        by_cases h2 : tn.node_address = ev.participant2
        · rw [if_pos h2] at hok
          simp only [Except.ok.injEq] at hok
          subst hok
          exact ⟨ev, rfl, hm, rfl, rfl, h2.symm, by rw [if_pos h2]⟩
        · rw [if_neg h2] at hok
          simp only [Except.ok.injEq] at hok
          subst hok
          exact ⟨ev, rfl, hm, rfl, rfl, (hm.resolve_right h2).symm,
            by rw [if_neg h2]⟩

/-- C1: if the Opened-event query for an in-range channel id returns at
least one entry and the last decoded entry lists the local node as one of
the two participants, construction succeeds, `participant1` is the local
node, and `participant2` is the other decoded participant, whichever
position the local node occupied. -/
theorem c1_canonicalization (tn : TokenNetwork) (cuid : ChannelUniqueID)
    (ev : ChannelOpenedEvent)
    (hrange : ¬ (cuid.channel_id < 0 ∨ cuid.channel_id > UINT256_MAX))
    (hlast : (tn.openedLogs cuid.channel_id).getLast? = some ev)
    (hmem : tn.node_address = ev.participant1 ∨
      tn.node_address = ev.participant2) :
    (pcInit tn cuid).1 = .ok
      { channel_unique_id := cuid
        participant1 := tn.node_address
        participant2 :=
          if tn.node_address = ev.participant1 then ev.participant2
          else ev.participant1
        token_network := tn } := by
  unfold pcInit
  rw [if_neg hrange, hlast]
  dsimp only
  rw [if_neg (not_not_intro hmem)]
  by_cases h2 : tn.node_address = ev.participant2
  · rw [if_pos h2]
    by_cases h1 : tn.node_address = ev.participant1
    · have hpp : ev.participant1 = ev.participant2 := h1.symm.trans h2
      rw [if_pos h1]
      simp [Except.ok.injEq, Channel.mk.injEq, h2, hpp]
    · rw [if_neg h1]
      simp [Except.ok.injEq, Channel.mk.injEq, h2]
  · rw [if_neg h2]
    have h1 : tn.node_address = ev.participant1 := hmem.resolve_right h2
    rw [if_pos h1]
    simp [Except.ok.injEq, Channel.mk.injEq, h1]

/-- C1 witness: on the concrete ledger, channel 5's Opened event lists
participants (2, 1) and the local node 1 is positionally second; the
constructed channel has `participant1 = 1` and `participant2 = 2`. -/
theorem c1_canonicalization_witness : (pcInit tnW cuidW).1 = .ok chW :=
  c1_canonicalization tnW cuidW ⟨2, 1, 500⟩
    (by set_option maxRecDepth 2000 in decide) (by decide) (by decide)

/-- C3: `close_block_number` returns absent when the Closed-event query is
empty, the single entry's block number when the query returns exactly one
entry, and the protocol-invariant failure (the `assert len(events) == 1`)
when it returns more than one entry. -/
theorem c3_close_block_number (c : Channel) :
    (c.token_network.closedLogs c.channel_identifier = [] →
      c.close_block_number.1 = .ok none)
    ∧ (∀ e, c.token_network.closedLogs c.channel_identifier = [e] →
      c.close_block_number.1 = .ok (some e.blockNumber))
    ∧ (2 ≤ (c.token_network.closedLogs c.channel_identifier).length →
      c.close_block_number.1 = .error .protocolInvariantViolation) := by
  refine ⟨fun h => ?_, fun e h => ?_, fun h => ?_⟩
  · unfold Channel.close_block_number
    rw [h]
  · unfold Channel.close_block_number
    rw [h]
  · unfold Channel.close_block_number
    rcases hE : c.token_network.closedLogs c.channel_identifier with
      _ | ⟨a, _ | ⟨b, t⟩⟩
    · rw [hE] at h; simp at h
    · rw [hE] at h; simp at h
    · rfl

/-- C3 witness: channel 5 on the concrete ledger has exactly one Closed
event, at block 1000. -/
theorem c3_close_block_number_witness :
    chW.close_block_number.1 = .ok (some 1000) :=
  (c3_close_block_number chW).2.1 ⟨1000⟩ (by decide)

/-- C4: `settle_timeout` returns the `settle_timeout` field of the most
recent (last in ledger order) Opened event, and fails with the
protocol-invariant assertion when the Opened-event query returns zero
entries. -/
theorem c4_settle_timeout (c : Channel) :
    (c.token_network.openedLogs c.channel_identifier = [] →
      c.settle_timeout.1 = .error .protocolInvariantViolation)
    ∧ (∀ e, (c.token_network.openedLogs c.channel_identifier).getLast? =
        some e →
      c.settle_timeout.1 = .ok e.settle_timeout) := by
  refine ⟨fun h => ?_, fun e h => ?_⟩
  · unfold Channel.settle_timeout
    rw [h]
    rfl
  · unfold Channel.settle_timeout
    rw [h]

/-- C4 witness: channel 5's Opened event carries settle timeout 500. -/
theorem c4_settle_timeout_witness : chW.settle_timeout.1 = .ok 500 :=
  (c4_settle_timeout chW).2 ⟨2, 1, 500⟩ (by decide)

/-- C5: for every block range, `all_events_filter` builds the filter whose
topic list is `[None, hex64 id]` — event-signature position unconstrained,
channel-id position the zero-padded 256-bit (64 hex digits behind `0x`)
encoding of this channel's id — so it matches every event signature paired
with this channel's id topic and no event carrying a different id's
topic. -/
theorem c5_all_events_filter (c : Channel) (from_block to_block : Option Nat)
    (h0 : 0 ≤ c.channel_identifier)
    (h1 : c.channel_identifier ≤ UINT256_MAX) :
    (c.all_events_filter from_block to_block).1 =
      { contract_address := c.token_network.address
        topics := [none, some (hex64 c.channel_identifier.toNat)]
        from_block := from_block
        to_block := to_block }
    ∧ (hex64 c.channel_identifier.toNat).length = 66
    ∧ (∀ sig : String,
        topicsMatch [none, some (hex64 c.channel_identifier.toNat)]
          [sig, hex64 c.channel_identifier.toNat] = true)
    ∧ (∀ (sig : String) (id2 : Nat),
        topicsMatch [none, some (hex64 c.channel_identifier.toNat)]
          [sig, hex64 id2] = true ↔ id2 = c.channel_identifier.toNat) := by
  refine ⟨rfl, ?_, fun sig => ?_, fun sig id2 => ?_⟩
  · apply hex64_length
    rw [Int.toNat_lt' (by norm_num : (16 : Nat) ^ 64 ≠ 0)]
    calc c.channel_identifier ≤ UINT256_MAX := h1
      _ < ((16 ^ 64 : Nat) : Int) := by unfold UINT256_MAX; norm_num
  · simp [topicsMatch]
  · simp only [topicsMatch, Bool.and_true, Bool.true_and, decide_eq_true_eq]
    constructor
    · intro h
      exact (hex64_inj h).symm
    · intro h
      rw [h]

/-- C5 witness: at channel 5 with block range (10, absent), the filter has
the wildcard signature topic and channel 5's encoded topic. -/
theorem c5_all_events_filter_witness :
    (chW.all_events_filter (some 10) none).1 =
      { contract_address := tnW.address
        topics := [none, some (hex64 5)]
        from_block := some 10
        to_block := none } :=
  (c5_all_events_filter chW (some 10) none (by decide)
    (by set_option maxRecDepth 2000 in decide)).1

/-- C6: out-of-range channel ids are rejected with the invalid-id error
before any ledger call (the call trace is empty); in-range ids pass the
validation and reach the ledger log query for the Opened event. -/
theorem c6_range_check (tn : TokenNetwork) (cuid : ChannelUniqueID) :
    ((cuid.channel_id < 0 ∨ cuid.channel_id > UINT256_MAX) →
      pcInit tn cuid = (.error .invalidChannelID, []))
    ∧ (¬ (cuid.channel_id < 0 ∨ cuid.channel_id > UINT256_MAX) →
      (pcInit tn cuid).2 =
        [LedgerCall.getLogs tn.address cuid.channel_id .ChannelOpened]) := by
  constructor
  · intro h
    unfold pcInit
    rw [if_pos h]
  · intro h
    unfold pcInit
    rw [if_neg h]
    cases hE : (tn.openedLogs cuid.channel_id).getLast? with
    | none => rfl
    | some ev =>
      dsimp only
      split_ifs <;> rfl

/-- C6 witness: channel id -1 is rejected without touching the ledger;
channel id 5 reaches the Opened-event query. -/
theorem c6_range_check_witness :
    pcInit tnW cuidBad = (.error .invalidChannelID, []) :=
  (c6_range_check tnW cuidBad).1 (by decide)

/-- C7: an in-range channel id whose Opened-event query returns zero
entries fails construction with the channel-not-found error. -/
theorem c7_channel_not_found (tn : TokenNetwork) (cuid : ChannelUniqueID)
    (hrange : ¬ (cuid.channel_id < 0 ∨ cuid.channel_id > UINT256_MAX))
    (hempty : tn.openedLogs cuid.channel_id = []) :
    (pcInit tn cuid).1 = .error .channelNotFound := by
  unfold pcInit
  rw [if_neg hrange, hempty]
  rfl

/-- C7 witness: channel 6 has no Opened event on the concrete ledger. -/
theorem c7_channel_not_found_witness :
    (pcInit tnW cuidNone).1 = .error .channelNotFound :=
  c7_channel_not_found tnW cuidNone
    (by set_option maxRecDepth 2000 in decide) (by decide)

/-- C8: when the most recent decoded Opened event lists two participants
neither of which is the local node, construction fails with the
not-a-participant error. -/
theorem c8_not_a_participant (tn : TokenNetwork) (cuid : ChannelUniqueID)
    (ev : ChannelOpenedEvent)
    (hrange : ¬ (cuid.channel_id < 0 ∨ cuid.channel_id > UINT256_MAX))
    (hlast : (tn.openedLogs cuid.channel_id).getLast? = some ev)
    (hp1 : tn.node_address ≠ ev.participant1)
    (hp2 : tn.node_address ≠ ev.participant2) :
    (pcInit tn cuid).1 = .error .notAParticipant := by
  unfold pcInit
  rw [if_neg hrange, hlast]
  dsimp only
  rw [if_pos (by rintro (h | h) <;> [exact hp1 h; exact hp2 h])]

/-- C8 witness: channel 7's Opened event lists participants 2 and 3, and
the local node is 1. -/
theorem c8_not_a_participant_witness :
    (pcInit tnW cuidAlien).1 = .error .notAParticipant :=
  c8_not_a_participant tnW cuidAlien ⟨2, 3, 90⟩
    (by set_option maxRecDepth 2000 in decide) (by decide) (by decide)
    (by decide)

/-- C2: each of the five mutating operations delegates against the partner
address `participant2`, on whose lock (from the collaborator's per-partner
registry) the submission is bracketed; the trace of one such call ends with
the release on every exit path (also on ledger rejection); and in every
admissible two-thread schedule of two such calls contending on the same
partner's lock, the ledger submissions do not interleave. -/
theorem c2_mutating_ops_serialized :
    (∀ (c : Channel) (td : Nat),
      (c.set_total_deposit td).1.partner = c.participant2)
    ∧ (∀ (c : Channel) (n b a s : Nat),
      (c.close n b a s).1.partner = c.participant2)
    ∧ (∀ (c : Channel) (n b a ps s : Nat),
      (c.update_transfer n b a ps s).1.partner = c.participant2)
    ∧ (∀ (c : Channel) (m : Nat), (c.unlock m).1.partner = c.participant2)
    ∧ (∀ (c : Channel) (x1 x2 x3 x4 x5 x6 : Nat),
      (c.settle x1 x2 x3 x4 x5 x6).1.partner = c.participant2)
    ∧ (∀ ok : Bool,
      (submissionTrace ok).getLast? = some .releasePartnerLock)
    ∧ (∀ (ok1 ok2 : Bool), ∀ bs ∈ allBoolLists 8,
      lockValid (mergeBy bs (submissionTrace ok1) (submissionTrace ok2)) =
        true →
      submissionsInterleaved
        (mergeBy bs (submissionTrace ok1) (submissionTrace ok2)) = false) :=
  ⟨fun _ _ => rfl, fun _ _ _ _ _ => rfl, fun _ _ _ _ _ _ => rfl,
   fun _ _ => rfl, fun _ _ _ _ _ _ _ => rfl, fun _ => rfl, lock_serializes⟩

/-- C2 witness: the schedule that runs the first call to completion and
then the second is admissible and its submissions do not interleave. -/
theorem c2_mutating_ops_serialized_witness :
    submissionsInterleaved
      (mergeBy [true, true, true, true, false, false, false, false]
        (submissionTrace true) (submissionTrace false)) = false :=
  c2_mutating_ops_serialized.2.2.2.2.2.2 true false
    [true, true, true, true, false, false, false, false] (by decide)
    (by decide)

/-- C9 counterexample: the claimed invariant `participant1 ≠ participant2`
does not hold after every successful construction — an Opened event listing
the local node as both participants constructs a channel with equal
participant fields (the constructor checks membership but never
distinctness). -/
theorem c9_counterexample :
    ¬ (∀ (tn : TokenNetwork) (cuid : ChannelUniqueID) (ch : Channel),
        (pcInit tn cuid).1 = .ok ch →
        ch.participant1 ≠ ch.participant2) := by
  intro h
  exact h tnCex cuidW chCex
    (by set_option maxRecDepth 2000 in exact rfl) rfl

/-- C9 (amended): after every successful construction `participant1` is the
local node address; `participant1 ≠ participant2` holds whenever the two
decoded participants of the resolving Opened event are distinct; and no
query or mutating operation modifies the channel object, so the identity
fields assigned at construction are never recomputed. -/
theorem c9_identity_frozen (tn : TokenNetwork) (cuid : ChannelUniqueID)
    (ch : Channel) (hok : (pcInit tn cuid).1 = .ok ch) :
    ch.participant1 = tn.node_address
    ∧ ch.channel_unique_id = cuid
    ∧ ch.token_network = tn
    ∧ (∀ ev, (tn.openedLogs cuid.channel_id).getLast? = some ev →
        ev.participant1 ≠ ev.participant2 →
        ch.participant1 ≠ ch.participant2)
    ∧ ch.token_address.2 = ch
    ∧ ch.detail.2 = ch
    ∧ ch.settle_timeout.2 = ch
    ∧ ch.close_block_number.2 = ch
    ∧ ch.opened.2 = ch
    ∧ ch.closed.2 = ch
    ∧ ch.settled.2 = ch
    ∧ ch.closing_address.2 = ch
    ∧ ch.can_transfer.2 = ch
    ∧ (∀ td, (ch.set_total_deposit td).2 = ch)
    ∧ (∀ n b a s, (ch.close n b a s).2 = ch)
    ∧ (∀ n b a ps s, (ch.update_transfer n b a ps s).2 = ch)
    ∧ (∀ m, (ch.unlock m).2 = ch)
    ∧ (∀ x1 x2 x3 x4 x5 x6, (ch.settle x1 x2 x3 x4 x5 x6).2 = ch)
    ∧ (∀ fb tb, (ch.all_events_filter fb tb).2 = ch) := by
  obtain ⟨ev, hE, hmem, hcu, htn, hp1, hp2⟩ := pcInit_ok_spec tn cuid ch hok
  refine ⟨hp1, hcu, htn, ?_, rfl, rfl, ?_, ?_, rfl, rfl, rfl, rfl, rfl,
    fun _ => rfl, fun _ _ _ _ => rfl, fun _ _ _ _ _ => rfl, fun _ => rfl,
    fun _ _ _ _ _ _ => rfl, fun _ _ => rfl⟩
  · intro ev2 hE2 hne
    rw [hE] at hE2
    injection hE2 with hE2
    subst hE2
    rw [hp1, hp2]
    by_cases h2 : tn.node_address = ev.participant2
    · rw [if_pos h2]
      exact fun hc => hne (hc.symm.trans h2)
    · rw [if_neg h2]
      exact fun hc => h2 hc
  · rcases hx : (ch.token_network.openedLogs ch.channel_identifier).getLast?
      with _ | e <;> simp [Channel.settle_timeout, hx]
  · rcases hx : ch.token_network.closedLogs ch.channel_identifier
      with _ | ⟨a, _ | ⟨b, t⟩⟩ <;> simp [Channel.close_block_number, hx]

/-- C9 (amended) witness: the concrete construction of channel 5 yields
`participant1 = 1`, the local node. -/
theorem c9_identity_frozen_witness : chW.participant1 = tnW.node_address :=
  (c9_identity_frozen tnW cuidW chW
    (by set_option maxRecDepth 2000 in exact rfl)).1

/-- C10: every construction-time failure of `pcInit` — out-of-range id,
missing Opened event, local node absent — is raised as the same Python
exception class `ValueError`, so callers cannot distinguish the three by
exception type. -/
theorem c10_uniform_error_type (tn : TokenNetwork) (cuid : ChannelUniqueID)
    (e : PCError) (h : (pcInit tn cuid).1 = .error e) :
    e.pythonType = .valueError := by
  unfold pcInit at h
  by_cases hr : cuid.channel_id < 0 ∨ cuid.channel_id > UINT256_MAX
  · rw [if_pos hr] at h
    cases h
    rfl
  · rw [if_neg hr] at h
    cases hE : (tn.openedLogs cuid.channel_id).getLast? with
    | none =>
      rw [hE] at h
      cases h
      rfl
    | some ev =>
      rw [hE] at h
      dsimp only at h
      by_cases hm : ¬ (tn.node_address = ev.participant1 ∨
          tn.node_address = ev.participant2)
      · rw [if_pos hm] at h
        cases h
        rfl
      · rw [if_neg hm] at h
        by_cases h2 : tn.node_address = ev.participant2
        · rw [if_pos h2] at h
          exact absurd h (by simp)
        · rw [if_neg h2] at h
          exact absurd h (by simp)

/-- C10 witness: the out-of-range failure for channel id -1 is a
`ValueError`. -/
theorem c10_uniform_error_type_witness :
    PCError.pythonType .invalidChannelID = .valueError :=
  c10_uniform_error_type tnW cuidBad .invalidChannelID rfl

end Raiden
